import Mathlib

/-!
# Verification of the template-substitution core of `generator.mjs`

This file embeds the pattern matcher (`TEMPLATE_REGEX_SELF_CLOSING`,
`TEMPLATE_REGEX_WITH_DEFAULT`, `TEMPLATE`, built by `paddedRegex`) and the
substitution engine (`transformFile`) of `src/generator.mjs` as executable
Lean definitions, and proves properties of them.

The two patterns are sequences of simple regex tokens, so instead of a
general regex engine we embed exactly the token sequences the source builds,
with a backtracking matcher whose preference order is that of a JavaScript
regex engine (ordered alternation; greedy quantifiers prefer the longest
repetition first, lazy ones the shortest; earlier choice points vary slowest).

Two crucial points of faithfulness.  First, `paddedRegex` joins the fragment
sources with the JavaScript *string literal* `"\s*"`.  In a JS string, `\s`
is an unrecognized escape and denotes the plain character `s`, so the joiner
that actually lands in the compiled regex is `s*` — zero or more literal `s`
characters, not whitespace.  The embedding reproduces this (`Tok.sStar`).
Second, the combined regex `TEMPLATE` concatenates the two pattern sources
into one alternation without renumbering backreferences: the `\1` of the
with-default alternative then refers to the self-closing alternative's
quote group, which never participates when the with-default alternative
matches, and a backreference to an unparticipating group matches the empty
string in ECMAScript.  The embedding reproduces this too (`Tok.slotName`
versus `Tok.slotNameFree`).
-/

set_option maxRecDepth 8192

namespace Gen

/-- JS word character (the class `\w` used by the `\b` assertions in the
pattern): `[0-9A-Za-z_]`. -/
def wordChar (c : Char) : Bool := c.isAlphanum || c = '_'

/-- Characters allowed in a slot name by the group
`(?<name>[0-9A-Za-z_-]+)`. -/
def nameChar (c : Char) : Bool := c.isAlphanum || c = '_' || c = '-'

/-- The single-quote character (codepoint 39). -/
def squote : Char := Char.ofNat 39

/-- Quote characters accepted by the char class in
`(['"])(?<name>[0-9A-Za-z_-]+)\1`. -/
def isQuote (c : Char) : Bool := c = '"' || c = squote

/-- Characters matched by `.` in a JS regex without the `s` flag: everything
except the line terminators LF, CR, U+2028 and U+2029. -/
def dotChar (c : Char) : Bool :=
  !(c = '\n' || c = '\r' || c = Char.ofNat 8232 || c = Char.ofNat 8233)

/-- The named capture groups of the combined regex `TEMPLATE`: `name` from
either alternative's `(?<name>...)`, `default` from
`TEMPLATE_REGEX_WITH_DEFAULT`'s `(?<default>.*)`.  A group left unmatched is
`undefined` in JS, modelled as `none`. -/
structure Caps where
  name : Option String
  default : Option String
deriving Repr, DecidableEq

/-- Regex tokens appearing in the two patterns of `generator.mjs`
(lines 101–126):

* `lit l` — a literal run of characters (`<`, `template`, `slot`, `=`, `/`, `>`);
* `wordB` — the word-boundary assertion `\b`;
* `dotLazy` — `.*?` (lazy, `.` does not match a newline);
* `dotGreedyDefault` — `(?<default>.*)` (greedy, captured);
* `sStar` — the joiner `paddedRegex` inserts between fragments, which is the
  regex `s*` (zero or more literal `s`) because the join string `"\s*"`
  collapses to `"s*"` in JavaScript;
* `slotName` — `(['"])(?<name>[0-9A-Za-z_-]+)\1` as it behaves inside the
  FIRST alternative of the combined regex `TEMPLATE`: an opening quote, a
  captured nonempty run of name characters, and the matching closing quote
  (there `\1` refers to that alternative's own quote group, which has just
  participated);
* `slotNameFree` — the same source text as it behaves inside the SECOND
  alternative of `TEMPLATE`: concatenating the two pattern sources does not
  renumber backreferences, so the `\1` written in
  `TEMPLATE_REGEX_WITH_DEFAULT` refers to group 1 of the combined pattern —
  the self-closing alternative's quote group, which never participates when
  the second alternative matches.  In ECMAScript a backreference to an
  unparticipating group matches the empty string, so this token demands an
  opening quote and a nonempty greedy run of name characters but NO closing
  quote. -/
inductive Tok where
  | lit (l : List Char)
  | wordB
  | dotLazy
  | dotGreedyDefault
  | sStar
  | slotName
  | slotNameFree
deriving Repr, DecidableEq

/-- Drop a literal prefix: `litDrop l s = some s2` iff `s = l ++ s2`. -/
def litDrop : List Char → List Char → Option (List Char)
  | [], s => some s
  | _ :: _, [] => none
  | c :: cs, d :: ds => if c = d then litDrop cs ds else none

/-- The `\b` assertion between the previous character (if any) and the rest
of the input: exactly one side is a word character. -/
def atBoundary (prev : Option Char) (s : List Char) : Bool :=
  (match prev with | some c => wordChar c | none => false) !=
  (match s with | c :: _ => wordChar c | [] => false)

/-- Previous character after consuming `n` characters of `s` (the character
just before the new position), for the `\b` assertion. -/
def prevAfter (s : List Char) (n : Nat) (prev : Option Char) : Option Char :=
  if n = 0 then prev else s.get? (n - 1)

/-- `[k, k-1, ..., 0]`: repetition counts in greedy preference order. -/
def descRange (k : Nat) : List Nat := (List.range (k + 1)).reverse

/-- `[0, 1, ..., k]`: repetition counts in lazy preference order. -/
def ascRange (k : Nat) : List Nat := List.range (k + 1)

/-- `[k, k-1, ..., 1]`: repetition counts of a greedy `+` (at least one) in
preference order. -/
def descRange1 (k : Nat) : List Nat := (List.range k).reverse.map (fun a => a + 1)

/-- Backtracking matcher for a token sequence against input `s`, given the
character preceding the current position (`prev`) and the captures made so
far.  Returns every way the sequence can match a prefix of `s`, as the pair
(remaining input, captures), in JavaScript preference order: the first
element is the match the JS engine commits to.  An empty list means the
sequence fails here. -/
def matchToks : List Tok → List Char → Option Char → Caps → List (List Char × Caps)
  | [], s, _, caps => [(s, caps)]
  | .lit l :: ts, s, prev, caps =>
    match litDrop l s with
    | some s2 => matchToks ts s2 (l.getLast? <|> prev) caps
    | none => []
  | .wordB :: ts, s, prev, caps =>
    if atBoundary prev s then matchToks ts s prev caps else []
  | .sStar :: ts, s, prev, caps =>
    (descRange (s.takeWhile (fun c => c = 's')).length).flatMap
      (fun n => matchToks ts (s.drop n) (prevAfter s n prev) caps)
  | .dotLazy :: ts, s, prev, caps =>
    (ascRange (s.takeWhile dotChar).length).flatMap
      (fun n => matchToks ts (s.drop n) (prevAfter s n prev) caps)
  | .dotGreedyDefault :: ts, s, prev, caps =>
    (descRange (s.takeWhile dotChar).length).flatMap
      (fun n => matchToks ts (s.drop n) (prevAfter s n prev)
        { caps with default := some (String.mk (s.take n)) })
  | .slotName :: ts, s, _, caps =>
    match s with
    | [] => []
    | q :: s1 =>
      if isQuote q then
        let nm := s1.takeWhile nameChar
        match s1.dropWhile nameChar with
        | [] => []
        | q2 :: s2 =>
          if 0 < nm.length ∧ q2 = q then
            matchToks ts s2 (some q) { caps with name := some (String.mk nm) }
          else []
      else []
  | .slotNameFree :: ts, s, _, caps =>
    match s with
    | [] => []
    | q :: s1 =>
      if isQuote q then
        (descRange1 (s1.takeWhile nameChar).length).flatMap (fun n =>
          matchToks ts (s1.drop n) (prevAfter s1 n (some q))
            { caps with name := some (String.mk (s1.take n)) })
      else []
termination_by structural toks _ _ _ => toks

/-- Token sequence of `TEMPLATE_REGEX_SELF_CLOSING` (generator.mjs lines
101–111): the fragments `<`, `template\b`, `.*?`, `\bslot`, `=`,
`(['"])(?<name>[0-9A-Za-z_-]+)\1`, `.*?`, `\/`, `>` joined by `s*`. -/
def SELF_TOKS : List Tok :=
  [ .lit ("<".data), .sStar,
    .lit ("template".data), .wordB, .sStar,
    .dotLazy, .sStar,
    .wordB, .lit ("slot".data), .sStar,
    .lit ("=".data), .sStar,
    .slotName, .sStar,
    .dotLazy, .sStar,
    .lit ("/".data), .sStar,
    .lit (">".data) ]

/-- Token sequence of `TEMPLATE_REGEX_WITH_DEFAULT` (generator.mjs lines
112–126) as it behaves inside the combined regex `TEMPLATE` (line 128): the
fragments `<`, `template\b`, `.*?`, `\bslot`, `=`,
`(['"])(?<name>[0-9A-Za-z_-]+)\1`, `.*?`, `>`, `(?<default>.*)`, `<`, `\/`,
`template`, `>` joined by `s*`.  Because the two pattern sources are
concatenated into one alternation, the `\1` here refers to the self-closing
alternative's unparticipating quote group and matches the empty string, so
the slot value needs no closing quote: `slotNameFree`, not `slotName`. -/
def DEFAULT_TOKS : List Tok :=
  [ .lit ("<".data), .sStar,
    .lit ("template".data), .wordB, .sStar,
    .dotLazy, .sStar,
    .wordB, .lit ("slot".data), .sStar,
    .lit ("=".data), .sStar,
    .slotNameFree, .sStar,
    .dotLazy, .sStar,
    .lit (">".data), .sStar,
    .dotGreedyDefault, .sStar,
    .lit ("<".data), .sStar,
    .lit ("/".data), .sStar,
    .lit ("template".data), .sStar,
    .lit (">".data) ]

/-- Captures at the start of a match attempt: no group has matched. -/
def emptyCaps : Caps := ⟨none, none⟩

/-- One occurrence found by `data.matchAll(TEMPLATE)`: the values the
substitution loop reads off a match object — `match.index` (`startOff`),
`match.index + match[0].length` (`endOff`), `match.groups.name` and
`match.groups.default`. -/
structure Occ where
  startOff : Nat
  endOff : Nat
  name : Option String
  default : Option String
deriving Repr, DecidableEq

/-- Attempt the combined regex `TEMPLATE` (alternation
`TEMPLATE_REGEX_SELF_CLOSING | TEMPLATE_REGEX_WITH_DEFAULT`, line 128) at the
current position: the first alternative is preferred, as in JS.  Returns the
number of characters consumed and the captures. -/
def matchAt (s : List Char) (prev : Option Char) : Option (Nat × Caps) :=
  match matchToks SELF_TOKS s prev emptyCaps with
  | (rest, caps) :: _ => some (s.length - rest.length, caps)
  | [] =>
    match matchToks DEFAULT_TOKS s prev emptyCaps with
    | (rest, caps) :: _ => some (s.length - rest.length, caps)
    | [] => none

/-- Find the leftmost match at or after absolute position `pos`, where `s` is
the corresponding suffix of the subject and `prev` the character before it:
try the alternation at each position in turn, as a JS global regex does. -/
def findMatch : List Char → Option Char → Nat → Option Occ
  | [], prev, pos =>
    match matchAt [] prev with
    | some (len, caps) => some ⟨pos, pos + len, caps.name, caps.default⟩
    | none => none
  | c :: s2, prev, pos =>
    match matchAt (c :: s2) prev with
    | some (len, caps) => some ⟨pos, pos + len, caps.name, caps.default⟩
    | none => findMatch s2 (some c) (pos + 1)

/-- The character just before position `pos` of `t`. -/
def prevAt (t : List Char) (pos : Nat) : Option Char :=
  if pos = 0 then none else t.get? (pos - 1)

/-- Successive matches of `data.matchAll(TEMPLATE)` from position `pos` on:
each match is reported and scanning resumes at its end.  `fuel` bounds the
number of matches; since every match consumes at least one character,
`t.length + 1` matches can never be exceeded. -/
def scanAux (t : List Char) : Nat → Nat → List Occ
  | 0, _ => []
  | fuel + 1, pos =>
    match findMatch (t.drop pos) (prevAt t pos) pos with
    | none => []
    | some occ => occ :: scanAux t fuel occ.endOff

/-- All matches of the global regex `TEMPLATE` in `t`, in scanning order:
the list `[...data.matchAll(TEMPLATE)]` of generator.mjs line 189. -/
def scan (t : List Char) : List Occ := scanAux t (t.length + 1) 0

/-- `findOccurrences` of the spec: the matcher as a function of the text. -/
def findOccurrences (data : String) : List Occ := scan data.data

/-- Error codes of the file-system exceptions `handleFileError`
distinguishes. -/
inductive FileError where
  | enoent
  | eacces
  | other
deriving Repr, DecidableEq

/-- Outcome of the template lookup for one name (lines 197–200): `found c`
when `existsSync(templateFile)` is true and `readFileSync` returns `c`;
`notFound` when `existsSync(templateFile)` is false; `raiseErr e` when the
file exists but `readFileSync` throws. -/
inductive ROut where
  | found (c : String)
  | notFound
  | raiseErr (e : FileError)
deriving Repr, DecidableEq

/-- The replacement text chosen for one match (lines 196–204): if
`match.groups.name` is truthy and the template file exists, the file's
content (a read failure throws); otherwise `match.groups.default ?? ""`. -/
def fragment (occ : Occ) (resolve : String → ROut) : Except FileError String :=
  match occ.name with
  | some n =>
    if n ≠ "" then
      match resolve n with
      | .found c => .ok c
      | .notFound => .ok (occ.default.getD "")
      | .raiseErr e => .error e
    else .ok (occ.default.getD "")
  | none => .ok (occ.default.getD "")

/-- The substitution loop (lines 193–207): for each match append
`data.slice(start, match.index)` and the fragment, set
`start = match.index + match[0].length`; after the loop append
`data.slice(start)`.  A thrown resolver error aborts the loop. -/
def substLoop (t : List Char) (resolve : String → ROut) :
    List Occ → Nat → Except FileError (List Char)
  | [], start => .ok (t.drop start)
  | occ :: rest, start =>
    match fragment occ resolve with
    | .error e => .error e
    | .ok f =>
      match substLoop t resolve rest occ.endOff with
      | .error e => .error e
      | .ok tail => .ok ((t.take occ.startOff).drop start ++ f.data ++ tail)

/-- `transformedData` after the `if (templates.length > 0)` block
(lines 190–208): the loop's result when there are matches, the empty string
otherwise. -/
def substCore (t : List Char) (occs : List Occ) (resolve : String → ROut) :
    Except FileError (List Char) :=
  if 0 < occs.length then substLoop t resolve occs 0 else .ok []

/-- The substitution engine for a given occurrence list, including line 210's
`return transformedData || data`: an empty result falls back to the original
text. -/
def substitute (data : String) (occs : List Occ) (resolve : String → ROut) :
    Except FileError String :=
  match substCore data.data occs resolve with
  | .error e => .error e
  | .ok l => .ok (if l.isEmpty then data else String.mk l)

/-- The body of `transformFile`'s `try` block (lines 188–210), with the
source text passed directly in place of the `readFileSync` of the source
file: match, substitute, apply the `|| data` fallback; a resolver exception
escapes. -/
def transformPass (data : String) (resolve : String → ROut) :
    Except FileError String :=
  substitute data (findOccurrences data) resolve

/-- `transformFile` (lines 186–214): any exception of the pass is caught,
reported by `handleFileError`, and the function returns `undefined`
(`none`). -/
def transformFile (data : String) (resolve : String → ROut) : Option String :=
  match transformPass data resolve with
  | .ok s => some s
  | .error _ => none

/-- The resolver that never finds a template (`existsSync` always false). -/
def neverResolver : String → ROut := fun _ => .notFound

/-- Decidable equality of result values, so that concrete runs can be checked
by evaluation. -/
instance exceptDecEq {ε α : Type} [DecidableEq ε] [DecidableEq α] :
    DecidableEq (Except ε α) := fun x y =>
  match x, y with
  | .ok a, .ok b =>
    if h : a = b then .isTrue (by rw [h]) else .isFalse (fun he => h (Except.ok.inj he))
  | .error a, .error b =>
    if h : a = b then .isTrue (by rw [h]) else .isFalse (fun he => h (Except.error.inj he))
  | .ok _, .error _ => .isFalse (fun he => Except.noConfusion he)
  | .error _, .ok _ => .isFalse (fun he => Except.noConfusion he)

/-! ## Structural lemmas about the matcher -/

theorem litDrop_length {l s s2 : List Char} (h : litDrop l s = some s2) :
    s2.length + l.length = s.length := by
  induction l generalizing s with
  | nil =>
    simp [litDrop] at h
    simp [h]
  | cons c cs ih =>
    cases s with
    | nil => simp [litDrop] at h
    | cons d ds =>
      by_cases hc : c = d
      · simp only [litDrop, if_pos hc] at h
        have := ih h
        simp only [List.length_cons]
        omega
      · simp [litDrop, hc] at h

/-- Whatever a token sequence matches, the remaining input is no longer than
the input it started from. -/
theorem matchToks_length :
    ∀ (toks : List Tok) (s : List Char) (prev : Option Char) (caps : Caps)
      (r : List Char) (c : Caps), (r, c) ∈ matchToks toks s prev caps →
      r.length ≤ s.length := by
  intro toks
  induction toks with
  | nil =>
    intro s prev caps r c h
    simp [matchToks] at h
    simp [h.1]
  | cons t ts ih =>
    intro s prev caps r c h
    cases t with
    | lit l =>
      rcases hd : litDrop l s with _ | s2
      · simp [matchToks, hd] at h
      · simp only [matchToks, hd] at h
        have h1 := ih _ _ _ _ _ h
        have h2 := litDrop_length hd
        omega
    | wordB =>
      simp only [matchToks] at h
      split at h
      · exact ih _ _ _ _ _ h
      · simp at h
    | sStar =>
      simp only [matchToks] at h
      rw [List.mem_flatMap] at h
      obtain ⟨n, _, hm⟩ := h
      have h1 := ih _ _ _ _ _ hm
      rw [List.length_drop] at h1
      omega
    | dotLazy =>
      simp only [matchToks] at h
      rw [List.mem_flatMap] at h
      obtain ⟨n, _, hm⟩ := h
      have h1 := ih _ _ _ _ _ hm
      rw [List.length_drop] at h1
      omega
    | dotGreedyDefault =>
      simp only [matchToks] at h
      rw [List.mem_flatMap] at h
      obtain ⟨n, _, hm⟩ := h
      have h1 := ih _ _ _ _ _ hm
      rw [List.length_drop] at h1
      omega
    | slotName =>
      cases s with
      | nil => simp [matchToks] at h
      | cons q s1 =>
        simp only [matchToks] at h
        rcases hdw : s1.dropWhile nameChar with _ | ⟨q2, s2⟩ <;> rw [hdw] at h <;>
          simp at h
        obtain ⟨-, -, hm⟩ := h
        have h1 := ih _ _ _ _ _ hm
        have h2 : (s1.dropWhile nameChar).length ≤ s1.length :=
          (List.dropWhile_sublist _).length_le
        rw [hdw] at h2
        simp only [List.length_cons] at *
        omega
    | slotNameFree =>
      cases s with
      | nil => simp [matchToks] at h
      | cons q s1 =>
        simp only [matchToks] at h
        by_cases hq : isQuote q
        · simp only [hq, if_true] at h
          rw [List.mem_flatMap] at h
          obtain ⟨n, -, hm⟩ := h
          have h1 := ih _ _ _ _ _ hm
          rw [List.length_drop] at h1
          simp only [List.length_cons]
          omega
        · simp [hq] at h

/-- A token sequence headed by a nonempty literal consumes at least one
character when it matches. -/
theorem matchToks_lit_head_length {l : List Char} {ts : List Tok} {s : List Char}
    {prev : Option Char} {caps : Caps} {r : List Char} {c : Caps}
    (hl : l ≠ []) (h : (r, c) ∈ matchToks (.lit l :: ts) s prev caps) :
    r.length < s.length := by
  rcases hd : litDrop l s with _ | s2
  · simp [matchToks, hd] at h
  · simp only [matchToks, hd] at h
    have h1 := matchToks_length _ _ _ _ _ _ h
    have h2 := litDrop_length hd
    have h3 : 0 < l.length := by
      cases l
      · exact absurd rfl hl
      · simp
    omega

/-- A successful attempt of the combined regex consumes at least one and at
most all of the remaining characters. -/
theorem matchAt_spec {s : List Char} {prev : Option Char} {len : Nat} {caps : Caps}
    (h : matchAt s prev = some (len, caps)) : 0 < len ∧ len ≤ s.length := by
  unfold matchAt at h
  rcases h1 : matchToks SELF_TOKS s prev emptyCaps with _ | ⟨⟨rest, c⟩, tl⟩ <;>
    rw [h1] at h
  · rcases h2 : matchToks DEFAULT_TOKS s prev emptyCaps with _ | ⟨⟨rest, c⟩, tl⟩ <;>
      rw [h2] at h
    · simp at h
    · simp only [Option.some.injEq, Prod.mk.injEq] at h
      have hm : (rest, c) ∈ matchToks DEFAULT_TOKS s prev emptyCaps := by
        rw [h2]
        exact List.mem_cons_self _ _
      unfold DEFAULT_TOKS at hm
      have := matchToks_lit_head_length (by decide) hm
      omega
  · simp only [Option.some.injEq, Prod.mk.injEq] at h
    have hm : (rest, c) ∈ matchToks SELF_TOKS s prev emptyCaps := by
      rw [h1]
      exact List.mem_cons_self _ _
    unfold SELF_TOKS at hm
    have := matchToks_lit_head_length (by decide) hm
    omega

/-- A match found at or after `pos` starts no earlier than `pos`, is
nonempty, and ends within the subject. -/
theorem findMatch_spec :
    ∀ (s : List Char) (prev : Option Char) (pos : Nat) (occ : Occ),
      findMatch s prev pos = some occ →
      pos ≤ occ.startOff ∧ occ.startOff < occ.endOff ∧ occ.endOff ≤ pos + s.length := by
  intro s
  induction s with
  | nil =>
    intro prev pos occ h
    simp only [findMatch] at h
    rcases hm : matchAt [] prev with _ | ⟨len, caps⟩ <;> rw [hm] at h
    · simp at h
    · have hs := matchAt_spec hm
      simp only [List.length_nil] at hs
      omega
  | cons a s2 ih =>
    intro prev pos occ h
    simp only [findMatch] at h
    rcases hm : matchAt (a :: s2) prev with _ | ⟨len, caps⟩ <;> rw [hm] at h
    · have := ih (some a) (pos + 1) occ h
      simp only [List.length_cons]
      omega
    · have hs := matchAt_spec hm
      simp only [Option.some.injEq] at h
      subst h
      simp only [List.length_cons] at *
      omega

/-- Occurrences reported from position `pos` on: each lies between `pos` and
the end of the text, is nonempty, and they are pairwise non-overlapping in
scanning order. -/
theorem scanAux_spec (t : List Char) :
    ∀ (fuel pos : Nat), pos ≤ t.length →
      (∀ occ ∈ scanAux t fuel pos,
        pos ≤ occ.startOff ∧ occ.startOff < occ.endOff ∧ occ.endOff ≤ t.length) ∧
      List.Pairwise (fun a b => a.endOff ≤ b.startOff) (scanAux t fuel pos) := by
  intro fuel
  induction fuel with
  | zero =>
    intro pos _
    simp [scanAux]
  | succ n ih =>
    intro pos hpos
    simp only [scanAux]
    rcases hf : findMatch (t.drop pos) (prevAt t pos) pos with _ | occ
    · simp
    · have hspec := findMatch_spec _ _ _ _ hf
      rw [List.length_drop] at hspec
      have hend : occ.endOff ≤ t.length := by omega
      obtain ⟨ihAll, ihPW⟩ := ih occ.endOff hend
      refine ⟨?_, ?_⟩
      · intro o ho
        rcases List.mem_cons.mp ho with rfl | ho2
        · omega
        · have := ihAll o ho2
          omega
      · exact List.Pairwise.cons (fun o ho => (ihAll o ho).1) ihPW

/-! ## Claim theorems -/

/-- Claim C1 evaluated on the code: on the input
`<template slot="a">X</template><template slot="b">Y</template>` the matcher
detects exactly ONE occurrence, spanning the entire input (the greedy
`(?<default>.*)` runs to the LAST `</template>`), and substitution with a
resolver that finds nothing outputs the captured default
`X</template><template slot="b">Y` — not the two occurrences and output
`"XY"` the claim states. -/
theorem c1_single_spanning_occurrence :
    findOccurrences ("<template slot=\"a\">X</template><template slot=\"b\">Y</template>") =
      [⟨0, 62, some ("a"), some ("X</template><template slot=\"b\">Y")⟩] ∧
    transformFile ("<template slot=\"a\">X</template><template slot=\"b\">Y</template>")
        neverResolver =
      some ("X</template><template slot=\"b\">Y") := by
  refine ⟨by decide, by decide⟩

/-- Claim C2 evaluated on the code: whitespace between structural tokens is
NOT generally tolerated.  The join string `"\s*"` of `paddedRegex` denotes
`"s*"` (literal `s`), so padding is only tolerated where a `.*?` fragment
sits; around `=` there is none, and `<template slot = "x"/>` is not matched
at all (the document passes through unchanged), while the same tag without
the spaces around `=` is matched. -/
theorem c2_whitespace_round_equals_rejected :
    findOccurrences ("<template slot = \"x\"/>") = [] ∧
    transformFile ("<template slot = \"x\"/>") neverResolver =
      some ("<template slot = \"x\"/>") ∧
    findOccurrences ("<template slot=\"x\"/>") = [⟨0, 20, some ("x"), none⟩] := by
  refine ⟨by decide, by decide, by decide⟩

/-- Claim C3 evaluated on the code: the combined regex `TEMPLATE` does NOT
enforce the claimed failure behaviour for the with-default shape.
Concatenating the two pattern sources renumbers the capture groups, so the
`\1` inside the with-default alternative refers to the self-closing
alternative's group 1, which never participates there, and such a
backreference matches the empty string — no closing-quote check remains.
Hence `<template slot='a">X</template>` (mismatched quote pair) and
`<template slot="a b">X</template>` (a character outside `[0-9A-Za-z_-]` in
the value) are both matched, with name `a` and default `X`, where the claim
says the candidate fails the shape and no occurrence is produced there.  A
well-formed double-quoted value still matches (via the self-closing
alternative, whose own `\1` check is intact). -/
theorem c3_mismatched_quote_still_matches :
    scan ("<template slot=".data ++ [squote] ++ "a\">X</template>".data) =
      [⟨0, 31, some ("a"), some ("X")⟩] ∧
    findOccurrences ("<template slot=\"a b\">X</template>") =
      [⟨0, 33, some ("a"), some ("X")⟩] ∧
    findOccurrences ("<template slot=\"ok-1\"/>") = [⟨0, 23, some ("ok-1"), none⟩] := by
  refine ⟨by decide, by decide, by decide⟩

/-- Claim C4 counterexample: for the document `<template slot="a"/>` and a
resolver raising EACCES, the substitution pass raises, but `transformFile`
catches the exception (its `catch` block calls `handleFileError` and falls
off the end), so the caller receives `undefined` (`none`) — the failure is
not propagated upward unchanged. -/
theorem c4_error_swallowed :
    transformPass ("<template slot=\"a\"/>") (fun _ => .raiseErr .eacces) =
      .error FileError.eacces ∧
    transformFile ("<template slot=\"a\"/>") (fun _ => .raiseErr .eacces) = none := by
  refine ⟨by decide, by decide⟩

/-- Claim C4 amended: when the resolver raises for a reason other than
not-found, substitution for that document fails as a whole — no partial
output is returned — but the error is not re-thrown: `transformFile` catches
it, reports it via `handleFileError`, and returns `undefined` (`none`), an
outcome distinct from every successful substitution (which is `some`). -/
theorem c4_error_caught_returns_none (data : String) (resolve : String → ROut)
    (e : FileError) (h : transformPass data resolve = .error e) :
    transformFile data resolve = none := by
  unfold transformFile
  rw [h]

/-- Claim C4 witness. -/
theorem c4_witness :
    transformFile ("<template slot=\"a\"/>") (fun _ => .raiseErr .eacces) = none :=
  c4_error_caught_returns_none _ _ FileError.eacces (by decide)

/-- Claim C5 counterexample: the claim says a source that is exactly one
self-closing occurrence with an unresolvable name substitutes to the empty
string.  The code replaces an empty substitution result by the original
source (`transformedData || data`): `transformFile` returns the input
unchanged, which is not the empty string. -/
theorem c5_empty_output_replaced_by_source :
    transformFile ("<template slot=\"a\"/>") neverResolver =
      some ("<template slot=\"a\"/>") ∧
    ("<template slot=\"a\"/>" : String) ≠ "" := by
  refine ⟨by decide, by decide⟩

/-- Claim C5 amended: a self-closing occurrence (`default = none`) whose name
the resolver reports NotFound resolves to the empty fragment; for the
document consisting of exactly one such occurrence the substitution pass
produces empty text, and `transformFile` then returns the original source
text rather than the empty string. -/
theorem c5_fragment_empty_but_source_returned
    (occ : Occ) (resolve : String → ROut)
    (hd : occ.default = none)
    (hr : ∀ n, occ.name = some n → resolve n = .notFound) :
    fragment occ resolve = .ok "" ∧
    substCore ("<template slot=\"a\"/>".data)
      (findOccurrences ("<template slot=\"a\"/>")) neverResolver = .ok [] ∧
    transformFile ("<template slot=\"a\"/>") neverResolver =
      some ("<template slot=\"a\"/>") := by
  refine ⟨?_, by decide, by decide⟩
  cases hn : occ.name with
  | none => simp [fragment, hn, hd]
  | some n =>
    by_cases hne : n = ""
    · simp [fragment, hn, hd, hne]
    · simp [fragment, hn, hd, hne, hr n hn]

/-- Claim C5 witness. -/
theorem c5_witness :
    fragment ⟨0, 20, some ("a"), none⟩ neverResolver = .ok "" ∧
    substCore ("<template slot=\"a\"/>".data)
      (findOccurrences ("<template slot=\"a\"/>")) neverResolver = .ok [] ∧
    transformFile ("<template slot=\"a\"/>") neverResolver =
      some ("<template slot=\"a\"/>") :=
  c5_fragment_empty_but_source_returned ⟨0, 20, some ("a"), none⟩ neverResolver rfl
    (fun _ _ => rfl)

/-- Claim C6 counterexample: `transformFile` CAN return the empty string — on
the empty source the substitution result is empty and the `|| data` fallback
returns the (empty) original. -/
theorem c6_empty_source_empty_output :
    transformFile "" neverResolver = some "" := by decide

/-- Claim C6 amended: whenever the fully substituted text is empty,
`transformFile` returns the original source text instead of the substitution
result; consequently it returns the empty string only when the source itself
is empty. -/
theorem c6_empty_result_falls_back_to_source (data : String)
    (resolve : String → ROut) :
    (∀ occs : List Occ, substCore data.data occs resolve = .ok [] →
      substitute data occs resolve = .ok data) ∧
    (∀ s, transformFile data resolve = some s → s = "" → data = "") := by
  constructor
  · intro occs h
    unfold substitute
    rw [h]
    simp
  · intro s hs hse
    subst hse
    unfold transformFile at hs
    rcases h2 : transformPass data resolve with e | s2 <;> rw [h2] at hs
    · simp at hs
    · simp only [Option.some.injEq] at hs
      subst hs
      unfold transformPass substitute at h2
      rcases h3 : substCore data.data (findOccurrences data) resolve with e | l <;>
        rw [h3] at h2
      · simp at h2
      · simp only [Except.ok.injEq] at h2
        by_cases hl : l.isEmpty
        · rw [if_pos hl] at h2
          exact h2
        · rw [if_neg hl] at h2
          have hnil : l = [] := congrArg String.data h2
          rw [hnil] at hl
          simp at hl

/-- Claim C6 witness. -/
theorem c6_witness :
    substitute "" [] neverResolver = .ok "" ∧ ("" : String) = "" :=
  ⟨(c6_empty_result_falls_back_to_source "" neverResolver).1 [] (by decide),
    (c6_empty_result_falls_back_to_source "" neverResolver).2 "" (by decide) rfl⟩

/-- Claim C7: resolution priority per occurrence — a successful resolve wins
(even for a self-closing occurrence without default, and even when the
resolved content is the empty string), else a non-null default is used
verbatim, else the empty string. -/
theorem c7_resolution_priority (occ : Occ) (resolve : String → ROut) (n : String)
    (hn : occ.name = some n) (hne : n ≠ "") :
    (∀ c, resolve n = .found c → fragment occ resolve = .ok c) ∧
    (∀ d, resolve n = .notFound → occ.default = some d → fragment occ resolve = .ok d) ∧
    (resolve n = .notFound → occ.default = none → fragment occ resolve = .ok "") := by
  refine ⟨?_, ?_, ?_⟩
  · intro c hr
    simp [fragment, hn, hne, hr]
  · intro d hr hd
    simp [fragment, hn, hne, hr, hd]
  · intro hr hd
    simp [fragment, hn, hne, hr, hd]

/-- Claim C7 witness: with a default present and the resolver succeeding, the
resolved content wins over the default. -/
theorem c7_witness :
    fragment ⟨0, 1, some ("greeting"), some ("Hi")⟩
      (fun m => if m = "greeting" then .found ("Hello!") else .notFound) =
      .ok "Hello!" :=
  (c7_resolution_priority ⟨0, 1, some ("greeting"), some ("Hi")⟩
      (fun m => if m = "greeting" then .found ("Hello!") else .notFound)
      "greeting" rfl (by decide)).1 "Hello!" (by decide)

/-- Claim C8: the literal example — `Hello <template slot="name">World</template>!`
substitutes to `"Hello World!"` when nothing resolves, and to
`"Hello Universe!"` when `"name"` resolves to `"Universe"`. -/
theorem c8_literal_example :
    transformFile ("Hello <template slot=\"name\">World</template>!") neverResolver =
      some ("Hello World!") ∧
    transformFile ("Hello <template slot=\"name\">World</template>!")
        (fun n => if n = "name" then .found ("Universe") else .notFound) =
      some ("Hello Universe!") := by
  refine ⟨by decide, by decide⟩

/-- Claim C9: substitution with an empty occurrence list is the identity for
every source text and resolver; in particular a document in which the matcher
finds no occurrence is returned unchanged by `transformFile`. -/
theorem c9_noop_identity (data : String) (resolve : String → ROut) :
    substitute data [] resolve = .ok data ∧
    (findOccurrences data = [] → transformFile data resolve = some data) := by
  constructor
  · unfold substitute substCore
    simp
  · intro h
    unfold transformFile transformPass
    rw [h]
    unfold substitute substCore
    simp

/-- Claim C9 witness. -/
theorem c9_witness :
    substitute ("plain text with no tags") [] neverResolver =
      .ok ("plain text with no tags") ∧
    transformFile ("plain text with no tags") neverResolver =
      some ("plain text with no tags") :=
  ⟨(c9_noop_identity ("plain text with no tags") neverResolver).1,
    (c9_noop_identity ("plain text with no tags") neverResolver).2 (by decide)⟩

/-- Claim C10: for every input text the occurrence sequence is produced in
ascending, non-overlapping offset order, and every occurrence satisfies
`startOffset < endOffset ≤ length(source)`. -/
theorem c10_occurrence_invariant (t : List Char) :
    List.Pairwise (fun a b => a.endOff ≤ b.startOff) (scan t) ∧
    ∀ occ ∈ scan t, occ.startOff < occ.endOff ∧ occ.endOff ≤ t.length := by
  obtain ⟨hAll, hPW⟩ := scanAux_spec t (t.length + 1) 0 (Nat.zero_le _)
  exact ⟨hPW, fun occ hm => ⟨(hAll occ hm).2.1, (hAll occ hm).2.2⟩⟩

/-- Claim C10 witness. -/
theorem c10_witness :
    (⟨0, 20, some ("a"), none⟩ : Occ).startOff < (⟨0, 20, some ("a"), none⟩ : Occ).endOff ∧
    (⟨0, 20, some ("a"), none⟩ : Occ).endOff ≤ ("<template slot=\"a\"/>".data).length :=
  (c10_occurrence_invariant ("<template slot=\"a\"/>".data)).2
    ⟨0, 20, some ("a"), none⟩ (by decide)

end Gen
